import Mathlib

/-!
Shallow embedding of `twobody/elements.py`: the orbital-elements data model
(`OrbitalElements` / `KeplerElements` / `TwoBodyKeplerElements`).

Quantities are represented by their numeric value in a fixed canonical unit
basis (length in AU, time in days, mass in solar masses, angles in degrees,
speeds in km/s); a `UnitSystem` is a tuple of per-dimension conversion
factors and `decompose` re-expresses a canonical value in that system.
Python `None` is `Option.none`; constructor failure (`ValueError`,
`TypeError`, `AttributeError`) is the `Except.error` branch.

The collaborators `UnitSystem` (units.py), `a_m_to_P` / `P_m_to_a`
(transforms.py) are not part of the sources; they are modelled from the
spec where marked.
-/

namespace Twobody

variable {α : Type} [LinearOrderedField α] [FloorRing α]

/-- The physical dimension of a stored quantity. -/
inductive Dim : Type where
  | length
  | time
  | mass
  | angle
  | speed
  | dimensionless
deriving DecidableEq

/-- Modelled from the spec: `UnitSystem` (units.py, not under src) is "an
ordered collection of physical units (length, time, mass, angle, speed)";
here a unit is represented by the conversion factor from the canonical
basis (AU, day, Msun, degree, km/s) into that unit. -/
structure UnitSystem (α : Type) where
  lengthU : α
  timeU : α
  massU : α
  angleU : α
  speedU : α
deriving DecidableEq

/-- The conversion factor of the system for one dimension. -/
def UnitSystem.factor (us : UnitSystem α) : Dim → α
  | .length => us.lengthU
  | .time => us.timeU
  | .mass => us.massU
  | .angle => us.angleU
  | .speed => us.speedU
  | .dimensionless => 1

/-- Modelled from the spec: `UnitSystem.decompose(quantity)` re-expresses a
dimensioned value in the system's base units; in the canonical-value model
this multiplies by the system's factor for the value's dimension. -/
def UnitSystem.decompose (us : UnitSystem α) (d : Dim) (v : α) : α :=
  v * us.factor d

/-- The element names that appear in the `names` class attributes. -/
inductive ElemName : Type where
  | P
  | a
  | e
  | m1
  | m2
  | omega
  | i
  | Omega
  | M0
deriving DecidableEq

/-- An epoch value (astropy `Time` collaborator): the J2000 default, a
Barycentric-MJD (scale tcb) instant built from a bare number, or some other
`Time` instant carried opaquely by its numeric value. -/
inductive PyTime (α : Type) : Type where
  | j2000
  | mjdTcb (v : α)
  | timeVal (v : α)
deriving DecidableEq

/-- What a caller may pass for `t0`: a bare number or a `Time` object. -/
inductive TimeInput (α : Type) : Type where
  | num (v : α)
  | time (t : PyTime α)
deriving DecidableEq

/-- The `t0` resolution in `KeplerElements.__init__` (lines 105-111): default is
J2000, a bare number is interpreted as Barycentric MJD (scale tcb), a `Time`
object is used as-is. -/
def resolveT0 : Option (TimeInput α) → PyTime α
  | none => .j2000
  | some (.num v) => .mjdTcb v
  | some (.time t) => t

/-- The ways construction / component selection can fail. -/
inductive KErr (α : Type) : Type where
  /-- `ValueError("You must specify {0}.")` from the required-element loop. -/
  | missingElem (n : ElemName)
  /-- Python `TypeError` (e.g. comparing or doing arithmetic on `None`). -/
  | typeError
  /-- `ValueError("Period `P` must be positive.")` -/
  | negativeP
  /-- `ValueError("Semi-major axis `a` must be positive.")` -/
  | negativeA
  /-- `ValueError("Eccentricity `e` must be: 0 <= e < 1")` -/
  | badE
  /-- `ValueError` for inclination out of range, carrying the offending value. -/
  | badI (v : α)
  /-- `AttributeError("Invalid class definition!")` from `OrbitalElements.__init__`. -/
  | invalidClassDef
  /-- `AttributeError` from assigning to a read-only synthesized property. -/
  | readonlyAttr
  /-- `ValueError("You must specify m1 and m2.")` -/
  | missingMasses
  /-- `ValueError` from `get_component` for a selector that is neither "1" nor "2". -/
  | invalidComponent (s : String)
deriving DecidableEq

/-- A constructed `KeplerElements` instance: the stored internal attributes
`_P`, `_a`, `_e`, `_omega`, `_i`, `_Omega`, `_M0` plus the plain attributes
`t0` and `units`.  `_aDimless` records that `a` was not supplied, in which
case `_a` holds the dimensionless unit value 1 (line 134). -/
structure KeplerElements (α : Type) : Type where
  units : UnitSystem α
  _P : α
  _a : α
  _aDimless : Bool
  _e : α
  _omega : α
  _i : α
  _Omega : α
  _M0 : α
  t0 : PyTime α
deriving DecidableEq

/-- The `KeplerElements.names` list (line 68). -/
def KeplerElements.names : List ElemName :=
  [.P, .a, .e, .omega, .i, .Omega, .M0]

/-- The `TwoBodyKeplerElements.names` list (line 169). -/
def TwoBodyKeplerElements.names : List ElemName :=
  [.P, .a, .e, .m1, .m2, .omega, .i, .Omega, .M0]

/-- The internal `_`-prefixed attributes that `KeplerElements.__init__`
assigns (lines 134-140), in assignment order. -/
def keplerAssigned : List ElemName :=
  [.a, .P, .e, .omega, .i, .Omega, .M0]

/-- The `KeplerElements.default_units` system (line 67): AU, day, Msun, degree, km/s —
exactly the canonical basis, so every factor is 1. -/
def default_units : UnitSystem α := ⟨1, 1, 1, 1, 1⟩

/-- Model of `coord.Angle(x).wrap_at(360*u.deg)` (angle collaborator, from
the spec: "wrap into [0°, 360°)"). -/
def wrapAt360 (x : α) : α :=
  x - 360 * (⌊x / 360⌋ : ℤ)

/-- Model of `KeplerElements.__init__` (lines 72-145), parameterized over the
dynamically-dispatched `self.names` list that `OrbitalElements.__init__`
(lines 48-62, invoked last via `super()`) checks against the assigned
attributes.  Argument order follows the signature; every parameter is an
`Option` because every Python parameter can be `None`.  The stages are:
`M0`/`t0` defaulting, the required-element loop over `P, omega, i, Omega`,
the four value validations, attribute assignment (with `omega`/`Omega`
wrapped), and finally the base-class units resolution and completeness
check. -/
def KeplerElements.initDyn (names : List ElemName)
    (P? a? e? omega? i? Omega? M0? : Option α)
    (t0? : Option (TimeInput α)) (units? : Option (UnitSystem α)) :
    Except (KErr α) (KeplerElements α) :=
  -- lines 101-103: M0 defaults to 0 degrees
  let M0v : α := match M0? with
    | none => 0
    | some m => m
  -- lines 105-111: t0 defaulting / bare-number interpretation
  let t0v : PyTime α := resolveT0 t0?
  -- lines 113-117: required elements, checked in the order P, omega, i, Omega
  match P? with
  | none => .error (.missingElem .P)
  | some Pv =>
  match omega? with
  | none => .error (.missingElem .omega)
  | some omegav =>
  match i? with
  | none => .error (.missingElem .i)
  | some iv =>
  match Omega? with
  | none => .error (.missingElem .Omega)
  | some Omegav =>
  -- lines 120-121: `if P < 0*u.day`
  if Pv < 0 then .error .negativeP
  -- lines 123-124: `if a is not None and a < 0*u.au`
  else if (match a? with
    | some av => decide (av < 0)
    | none => false : Bool) then .error .negativeA
  else
  -- lines 126-127: `if e < 0 or e >= 1`; comparing `None` raises TypeError
  match e? with
  | none => .error .typeError
  | some ev =>
  if ev < 0 ∨ 1 ≤ ev then .error .badE
  -- lines 129-131: `if i < 0*u.deg or i > 180*u.deg`
  else if iv < 0 ∨ 180 < iv then .error (.badI iv)
  else
  -- lines 48-62 via lines 143-145: units resolution, then the completeness
  -- check `hasattr(self, '_'+name)` for every name in the dynamic `self.names`
  if names.all (fun n => keplerAssigned.contains n) then
    .ok { units := units?.getD default_units
          _P := Pv
          _a := match a? with
            | some av => av
            | none => 1
          _aDimless := a?.isNone
          _e := ev
          _omega := wrapAt360 omegav
          _i := iv
          _Omega := wrapAt360 Omegav
          _M0 := M0v
          t0 := t0v }
  else .error .invalidClassDef

/-- Direct construction of a `KeplerElements`: the dynamic `self.names` is
`KeplerElements.names`. -/
def KeplerElements.init (P? a? e? omega? i? Omega? M0? : Option α)
    (t0? : Option (TimeInput α)) (units? : Option (UnitSystem α)) :
    Except (KErr α) (KeplerElements α) :=
  KeplerElements.initDyn KeplerElements.names P? a? e? omega? i? Omega? M0? t0? units?

/-- Calling `KeplerElements(...)` with `e` omitted binds the declared
default `e=0` (line 73). -/
def KeplerElements.initNoE (P? a? omega? i? Omega? M0? : Option α)
    (t0? : Option (TimeInput α)) (units? : Option (UnitSystem α)) :
    Except (KErr α) (KeplerElements α) :=
  KeplerElements.init P? a? (some 0) omega? i? Omega? M0? t0? units?

/-- Accessor `P` synthesized by `ElementsMeta` (lines 33-37): the stored
value decomposed through the instance's unit system. -/
def KeplerElements.P (k : KeplerElements α) : α :=
  k.units.decompose .time k._P

/-- Accessor `a`: a dimensionless stored value (unsupplied `a`) decomposes
to itself, a length decomposes through the unit system. -/
def KeplerElements.a (k : KeplerElements α) : α :=
  if k._aDimless then k.units.decompose .dimensionless k._a
  else k.units.decompose .length k._a

/-- Accessor `e` (dimensionless). -/
def KeplerElements.e (k : KeplerElements α) : α :=
  k.units.decompose .dimensionless k._e

/-- Accessor `omega`. -/
def KeplerElements.omega (k : KeplerElements α) : α :=
  k.units.decompose .angle k._omega

/-- Accessor `i`. -/
def KeplerElements.i (k : KeplerElements α) : α :=
  k.units.decompose .angle k._i

/-- Accessor `Omega`. -/
def KeplerElements.Omega (k : KeplerElements α) : α :=
  k.units.decompose .angle k._Omega

/-- Accessor `M0`. -/
def KeplerElements.M0 (k : KeplerElements α) : α :=
  k.units.decompose .angle k._M0

/-- A `TwoBodyKeplerElements` instance state: the inherited `KeplerElements`
attributes plus the mass attributes its `__init__` intends to add
(`m1`, `m2`, `m_tot`, lines 190-192); the mass element names synthesized by
the metaclass read `_m1` / `_m2`. -/
structure TwoBodyKeplerElements (α : Type) extends KeplerElements α where
  _m1 : α
  _m2 : α
  m_tot : α
deriving DecidableEq

/-- Accessor `m1` synthesized by `ElementsMeta` for `TwoBodyKeplerElements`. -/
def TwoBodyKeplerElements.m1 (tb : TwoBodyKeplerElements α) : α :=
  tb.toKeplerElements.units.decompose .mass tb._m1

/-- Accessor `m2`. -/
def TwoBodyKeplerElements.m2 (tb : TwoBodyKeplerElements α) : α :=
  tb.toKeplerElements.units.decompose .mass tb._m2

/-- The gravitational constant in the canonical basis,
AU³ Msun⁻¹ day⁻² (the IAU value of `G`·Msun expressed in those units). -/
def Gconst : α := 0.00029591220828559104

/-- Modelled from the spec: `a_m_to_P` (transforms.py, not under src) is the
"period_from_semimajor_axis" pure function, "implementing Kepler's third
law" with the "standard gravitational-constant-based formula":
`P = 2π √(a³ / (G m))`, returning days given AU and solar masses. -/
noncomputable def a_m_to_P (a m : ℝ) : ℝ :=
  2 * Real.pi * Real.sqrt (a ^ 3 / (Gconst * m))

/-- Modelled from the spec: `P_m_to_a` (transforms.py, not under src) is the
"semimajor_axis_from_period" pure function, Kepler's third law solved for
the semi-major axis: `a = (G m P² / (4π²))^(1/3)`. -/
noncomputable def P_m_to_a (P m : ℝ) : ℝ :=
  (Gconst * m * P ^ 2 / (4 * Real.pi ^ 2)) ^ ((1 : ℝ) / 3)

/-- Lines 186-192 of `TwoBodyKeplerElements.__init__`: the `super().__init__`
call — note `Omega=omega` on line 187 — followed, were it ever to return,
by `self.m1 = m1`, an assignment to a read-only property. -/
def TwoBodyKeplerElements.superStep (Pv av : α) (e? omega? i? Omega? M0? : Option α)
    (t0? : Option (TimeInput α)) (units? : Option (UnitSystem α)) :
    Except (KErr α) (TwoBodyKeplerElements α) :=
  match KeplerElements.initDyn TwoBodyKeplerElements.names
      (some Pv) (some av) e? omega? i? omega? M0? t0? units? with
  | .error err => .error err
  | .ok _ => .error .readonlyAttr

/-- Model of `TwoBodyKeplerElements.__init__` (lines 173-192), parameterized over the
two transform functions it imports (`f` models `a_m_to_P`, `g` models
`P_m_to_a`; transforms.py is not under src).  Steps: mass presence check,
`P`/`a` cross-derivation (passing `None` for both makes the transform choke
on `None` arithmetic, a TypeError), delegation to `KeplerElements.__init__`
— which forwards `omega` for both the `omega` and the `Omega` parameter
(line 187) and, via the base class, checks the dynamic
`TwoBodyKeplerElements.names` for backing attributes before `_m1`/`_m2`
exist — and finally the assignment `self.m1 = m1`, which targets the
read-only synthesized property `m1`. -/
def TwoBodyKeplerElements.init (f g : α → α → α)
    (m1? m2? P? a? e? omega? i? Omega? M0? : Option α)
    (t0? : Option (TimeInput α)) (units? : Option (UnitSystem α)) :
    Except (KErr α) (TwoBodyKeplerElements α) :=
  -- lines 177-178: `if m1 is None or m2 is None`
  match m1?, m2? with
  | some m1v, some m2v =>
    -- lines 180-184: cross-derive the missing one of P / a from m1+m2
    match P?, a? with
    | none, none => .error .typeError
    | none, some av =>
      TwoBodyKeplerElements.superStep (f av (m1v + m2v)) av e? omega? i? Omega? M0? t0? units?
    | some Pv, none =>
      TwoBodyKeplerElements.superStep Pv (g Pv (m1v + m2v)) e? omega? i? Omega? M0? t0? units?
    | some Pv, some av =>
      TwoBodyKeplerElements.superStep Pv av e? omega? i? Omega? M0? t0? units?
  | _, _ => .error .missingMasses


/-- Calling `TwoBodyKeplerElements(...)` with `e` omitted binds the declared
default `e=None` (line 174). -/
def TwoBodyKeplerElements.initNoE (f g : α → α → α)
    (m1? m2? P? a? omega? i? Omega? M0? : Option α)
    (t0? : Option (TimeInput α)) (units? : Option (UnitSystem α)) :
    Except (KErr α) (TwoBodyKeplerElements α) :=
  TwoBodyKeplerElements.init f g m1? m2? P? a? none omega? i? Omega? M0? t0? units?

/-- The argument of `get_component` can be any Python object; the method
starts with `num = str(num)`.  Integers and strings cover the claims. -/
inductive PyVal : Type where
  | int (n : ℤ)
  | str (s : String)
deriving DecidableEq

/-- Python `str(num)` for the modelled argument values. -/
def PyVal.toStr : PyVal → String
  | .int n => toString n
  | .str s => s

/-- Model of `TwoBodyKeplerElements.get_component` (lines 194-213): coerce the
selector with `str`, pick the mass-scaled semi-major axis and (for
component "2") rotate the argument of pericenter by π, then build a plain
`KeplerElements` from the accessor values (`self.P` etc. are the
unit-decomposed properties; `units` is not forwarded, so the component gets
the default unit system). -/
def TwoBodyKeplerElements.get_component (tb : TwoBodyKeplerElements α)
    (num : PyVal) : Except (KErr α) (KeplerElements α) :=
  let s := num.toStr
  if s = "1" then
    KeplerElements.init (some tb.toKeplerElements.P)
      (some (tb.m2 / tb.m_tot * tb.toKeplerElements.a))
      (some tb.toKeplerElements.e)
      (some tb.toKeplerElements.omega)
      (some tb.toKeplerElements.i)
      (some tb.toKeplerElements.Omega)
      (some tb.toKeplerElements.M0)
      (some (.time tb.toKeplerElements.t0)) none
  else if s = "2" then
    KeplerElements.init (some tb.toKeplerElements.P)
      (some (tb.m1 / tb.m_tot * tb.toKeplerElements.a))
      (some tb.toKeplerElements.e)
      (some (tb.toKeplerElements.omega + 180))
      (some tb.toKeplerElements.i)
      (some tb.toKeplerElements.Omega)
      (some tb.toKeplerElements.M0)
      (some (.time tb.toKeplerElements.t0)) none
  else .error (.invalidComponent s)

/-- Render a nonnegative `Nat` below 1000 as exactly three digits. -/
def pad3 (k : ℕ) : String :=
  if k < 10 then "00" ++ toString k
  else if k < 100 then "0" ++ toString k
  else toString k

/-- Python `"{:.3f}".format(x)`: the value rounded to three decimal places
(half-up on the exact rational model). -/
def fmt3 (q : ℚ) : String :=
  (if ⌊q * 1000 + 1 / 2⌋ < 0 then "-" else "") ++
    toString ((⌊q * 1000 + 1 / 2⌋ : ℤ).natAbs / 1000) ++ "." ++
    pad3 ((⌊q * 1000 + 1 / 2⌋ : ℤ).natAbs % 1000)

/-- The printable name of an element (for the required-element message). -/
def ElemName.render : ElemName → String
  | .P => "P"
  | .a => "a"
  | .e => "e"
  | .m1 => "m1"
  | .m2 => "m2"
  | .omega => "omega"
  | .i => "i"
  | .Omega => "Omega"
  | .M0 => "M0"

/-- The user-facing message of each error, following the format strings in
the source (the inclination message interpolates the offending value with
`"{:.3f}".format(i.to(u.degree))`, which renders as three decimals followed
by the unit name; the `get_component` message quotes the selector). -/
def KErr.message : KErr ℚ → String
  | .missingElem n => "You must specify " ++ n.render ++ "."
  | .typeError => "unorderable types: NoneType and int"
  | .negativeP => "Period `P` must be positive."
  | .negativeA => "Semi-major axis `a` must be positive."
  | .badE => "Eccentricity `e` must be: 0 <= e < 1"
  | .badI v => "Inclination `i` must be between 0º and 180º, you passed in i=" ++ fmt3 v ++ " deg"
  | .invalidClassDef => "Invalid class definition!"
  | .readonlyAttr => "cannot set attribute"
  | .missingMasses => "You must specify m1 and m2."
  | .invalidComponent s => "Invalid input " ++ s ++ " - must be 1 or 2"

/-- Projection of `Except`: the payload of a success, if any. -/
def okOf {ε σ : Type} : Except ε σ → Option σ
  | .ok v => some v
  | .error _ => none

/-- Projection of `Except`: the error of a failure, if any. -/
def errOf {ε σ : Type} : Except ε σ → Option ε
  | .ok _ => none
  | .error e => some e

/-- Whether construction succeeded. -/
def isOk {ε σ : Type} : Except ε σ → Bool
  | .ok _ => true
  | .error _ => false

instance {ε σ : Type} [DecidableEq ε] [DecidableEq σ] : DecidableEq (Except ε σ)
  | .ok a, .ok b =>
    if h : a = b then isTrue (congrArg Except.ok h)
    else isFalse fun hc => h (Except.ok.inj hc)
  | .ok _, .error _ => isFalse fun hc => Except.noConfusion hc
  | .error _, .ok _ => isFalse fun hc => Except.noConfusion hc
  | .error a, .error b =>
    if h : a = b then isTrue (congrArg Except.error h)
    else isFalse fun hc => h (Except.error.inj hc)

/-- The wrapped angle is `360` times the fractional part of `x / 360`. -/
theorem wrapAt360_eq_fract (x : α) : wrapAt360 x = 360 * Int.fract (x / 360) := by
  have h360 : (360 : α) ≠ 0 := by norm_num
  rw [wrapAt360, Int.fract]
  field_simp

/-- Wrapped angles are nonnegative. -/
theorem wrapAt360_nonneg (x : α) : 0 ≤ wrapAt360 x := by
  rw [wrapAt360_eq_fract]
  exact mul_nonneg (by norm_num) (Int.fract_nonneg _)

/-- Wrapped angles are below a full turn. -/
theorem wrapAt360_lt (x : α) : wrapAt360 x < 360 := by
  rw [wrapAt360_eq_fract]
  have h := Int.fract_lt_one (x / 360)
  nlinarith

/-- Evaluation spine of `KeplerElements.initDyn` when every element argument
is supplied: the four validations in order, then the completeness check
against the dynamic `names`. -/
theorem initDyn_some (names : List ElemName) (Pv av ev omv iv Omv M0v : α)
    (t0? : Option (TimeInput α)) (us? : Option (UnitSystem α)) :
    KeplerElements.initDyn names (some Pv) (some av) (some ev) (some omv)
        (some iv) (some Omv) (some M0v) t0? us? =
      if Pv < 0 then .error .negativeP
      else if av < 0 then .error .negativeA
      else if ev < 0 ∨ 1 ≤ ev then .error .badE
      else if iv < 0 ∨ 180 < iv then .error (.badI iv)
      else if names.all (fun n => keplerAssigned.contains n) then
        .ok ⟨us?.getD default_units, Pv, av, false, ev, wrapAt360 omv, iv,
             wrapAt360 Omv, M0v, resolveT0 t0?⟩
      else .error .invalidClassDef := by
  by_cases hP : Pv < 0
  · simp [KeplerElements.initDyn, hP]
  · by_cases ha : av < 0
    · simp [KeplerElements.initDyn, hP, ha]
    · by_cases he : ev < 0 ∨ 1 ≤ ev
      · simp [KeplerElements.initDyn, hP, ha, he]
      · by_cases hi : iv < 0 ∨ 180 < iv
        · simp [KeplerElements.initDyn, hP, ha, he, hi]
        · by_cases hn : names.all (fun n => keplerAssigned.contains n)
          · simp [KeplerElements.initDyn, hP, ha, he, hi, hn]
          · simp [KeplerElements.initDyn, hP, ha, he, hi, hn]

/-- For a direct `KeplerElements` the completeness check passes, so the
spine ends in success. -/
theorem init_some (Pv av ev omv iv Omv M0v : α)
    (t0? : Option (TimeInput α)) (us? : Option (UnitSystem α)) :
    KeplerElements.init (some Pv) (some av) (some ev) (some omv)
        (some iv) (some Omv) (some M0v) t0? us? =
      if Pv < 0 then .error .negativeP
      else if av < 0 then .error .negativeA
      else if ev < 0 ∨ 1 ≤ ev then .error .badE
      else if iv < 0 ∨ 180 < iv then .error (.badI iv)
      else .ok ⟨us?.getD default_units, Pv, av, false, ev, wrapAt360 omv, iv,
                wrapAt360 Omv, M0v, resolveT0 t0?⟩ := by
  have hn : (KeplerElements.names.all fun n => keplerAssigned.contains n) = true := rfl
  rw [KeplerElements.init, initDyn_some, hn]
  simp

/-- The completeness check fails for the two-body name list (no `_m1`). -/
theorem twoBodyNames_incomplete :
    (TwoBodyKeplerElements.names.all fun n => keplerAssigned.contains n) = false := rfl

/-- Reference construction with every field valid except that the period is
left free: a=1.5 AU, e=0.5, omega=67°, i=21°, Omega=33°, M0=53°. -/
def kinitP (p : ℚ) : Except (KErr ℚ) (KeplerElements ℚ) :=
  KeplerElements.init (some p) (some (3 / 2)) (some (1 / 2)) (some 67)
    (some 21) (some 33) (some 53) none none

/-- Reference construction with the eccentricity left free. -/
def kinitE (ev : ℚ) : Except (KErr ℚ) (KeplerElements ℚ) :=
  KeplerElements.init (some 365) (some (3 / 2)) (some ev) (some 67)
    (some 21) (some 33) (some 53) none none

/-- Reference construction with the inclination left free. -/
def kinitI (iv : ℚ) : Except (KErr ℚ) (KeplerElements ℚ) :=
  KeplerElements.init (some 365) (some (3 / 2)) (some (1 / 2)) (some 67)
    (some iv) (some 33) (some 53) none none

/-- Reference construction with the argument of pericenter left free. -/
def kinitOm (om : ℚ) : Except (KErr ℚ) (KeplerElements ℚ) :=
  KeplerElements.init (some 365) (some (3 / 2)) (some (1 / 2)) (some om)
    (some 21) (some 33) (some 53) none none

/-- C3 counterexample: constructing `KeplerElements` with P=0 (all other
fields valid) does NOT raise — the check on line 120 is `P < 0`, so zero
passes validation and construction succeeds, contradicting the claim that
P=0 raises an out-of-range error. -/
theorem period_zero_accepted : isOk (kinitP 0) = true := by
  rw [kinitP, init_some]
  norm_num [isOk]

/-- C3 (amended): `KeplerElements` accepts any non-negative period (in
particular P=0 and P=365 days) and rejects exactly the negative ones with
the out-of-range period error. -/
theorem period_nonneg_boundary (p : ℚ) :
    (isOk (kinitP p) = true ↔ 0 ≤ p) ∧
    (p < 0 → kinitP p = .error .negativeP) := by
  have hrw : kinitP p = if p < 0 then .error .negativeP
      else .ok ⟨default_units, p, 3 / 2, false, 1 / 2, wrapAt360 67, 21,
        wrapAt360 33, 53, .j2000⟩ := by
    rw [kinitP, init_some]
    norm_num [resolveT0]
  rw [hrw]
  by_cases hp : p < 0
  · rw [if_pos hp]
    exact ⟨⟨fun h => absurd h (by simp [isOk]),
      fun h0 => absurd hp (not_lt.mpr h0)⟩, fun _ => rfl⟩
  · rw [if_neg hp]
    exact ⟨⟨fun _ => not_lt.mp hp, fun _ => rfl⟩, fun hc => absurd hc hp⟩

/-- C3 witness: P=365 days is accepted. -/
theorem period_nonneg_boundary_witness : isOk (kinitP 365) = true :=
  (period_nonneg_boundary 365).1.mpr (by norm_num)

/-- C5: `KeplerElements` enforces 0 ≤ e < 1 — construction succeeds exactly
when the eccentricity is in that half-open interval, and any e outside it
produces the out-of-range eccentricity error. -/
theorem eccentricity_boundary (ev : ℚ) :
    (isOk (kinitE ev) = true ↔ 0 ≤ ev ∧ ev < 1) ∧
    ((ev < 0 ∨ 1 ≤ ev) → kinitE ev = .error .badE) := by
  have hrw : kinitE ev = if ev < 0 ∨ 1 ≤ ev then .error .badE
      else .ok ⟨default_units, 365, 3 / 2, false, ev, wrapAt360 67, 21,
        wrapAt360 33, 53, .j2000⟩ := by
    rw [kinitE, init_some]
    norm_num [resolveT0]
  rw [hrw]
  by_cases he : ev < 0 ∨ 1 ≤ ev
  · rw [if_pos he]
    refine ⟨⟨fun h => absurd h (by simp [isOk]), fun hc => ?_⟩, fun _ => rfl⟩
    rcases he with h | h
    · exact absurd h (not_lt.mpr hc.1)
    · exact absurd hc.2 (not_lt.mpr h)
  · rw [if_neg he]
    push_neg at he
    exact ⟨⟨fun _ => he, fun _ => rfl⟩, fun hc => absurd hc (by push_neg; exact he)⟩

/-- C5 witness: e=0 and e=0.999 accepted, e=1 and e=-0.1 rejected with the
eccentricity error. -/
theorem eccentricity_boundary_witness :
    isOk (kinitE 0) = true ∧ isOk (kinitE (999 / 1000)) = true ∧
    kinitE 1 = .error .badE ∧ kinitE (-1 / 10) = .error .badE :=
  ⟨(eccentricity_boundary 0).1.mpr (by norm_num),
   (eccentricity_boundary (999 / 1000)).1.mpr (by norm_num),
   (eccentricity_boundary 1).2 (by norm_num),
   (eccentricity_boundary (-1 / 10)).2 (by norm_num)⟩

/-- C6: `KeplerElements` enforces 0° ≤ i ≤ 180° (closed interval) —
construction succeeds exactly when i is in range, an out-of-range i
produces the inclination error carrying the offending value, and that
error's message renders the value to three decimal places. -/
theorem inclination_boundary (iv : ℚ) :
    (isOk (kinitI iv) = true ↔ 0 ≤ iv ∧ iv ≤ 180) ∧
    ((iv < 0 ∨ 180 < iv) → kinitI iv = .error (.badI iv) ∧
      KErr.message (.badI iv) =
        "Inclination `i` must be between 0º and 180º, you passed in i=" ++
          fmt3 iv ++ " deg") := by
  have hrw : kinitI iv = if iv < 0 ∨ 180 < iv then .error (.badI iv)
      else .ok ⟨default_units, 365, 3 / 2, false, 1 / 2, wrapAt360 67, iv,
        wrapAt360 33, 53, .j2000⟩ := by
    rw [kinitI, init_some]
    norm_num [resolveT0]
  rw [hrw]
  by_cases hi : iv < 0 ∨ 180 < iv
  · rw [if_pos hi]
    refine ⟨⟨fun h => absurd h (by simp [isOk]), fun hc => ?_⟩, fun _ => ⟨rfl, rfl⟩⟩
    rcases hi with h | h
    · exact absurd h (not_lt.mpr hc.1)
    · exact absurd hc.2 (not_le.mpr h)
  · rw [if_neg hi]
    push_neg at hi
    exact ⟨⟨fun _ => hi, fun _ => rfl⟩,
      fun hc => absurd hc (by push_neg; exact hi)⟩

/-- C6 witness: i=0° and i=180° accepted; i=180.1° rejected, its error
carrying the value, whose message shows 180.100 (three decimals). -/
theorem inclination_boundary_witness :
    isOk (kinitI 0) = true ∧ isOk (kinitI 180) = true ∧
    kinitI (1801 / 10) = .error (.badI (1801 / 10)) ∧
    KErr.message (.badI (1801 / 10)) =
      "Inclination `i` must be between 0º and 180º, you passed in i=180.100 deg" := by
  have hfmt : fmt3 (1801 / 10) = "180.100" := by
    have hn : ⌊(1801 / 10 : ℚ) * 1000 + 1 / 2⌋ = (180100 : ℤ) := by norm_num
    unfold fmt3
    rw [hn]
    rfl
  have h := (inclination_boundary (1801 / 10)).2 (by norm_num)
  refine ⟨(inclination_boundary 0).1.mpr (by norm_num),
    (inclination_boundary 180).1.mpr (by norm_num), h.1, ?_⟩
  rw [h.2, hfmt]
  rfl

/-- C7: on any successful construction (default unit system), the reported
`omega` and `Omega` are the inputs wrapped into [0°, 360°), while `i` and
`M0` are reported exactly as given, unwrapped. -/
theorem angle_normalization (P a e om i Om M0 : ℚ) (t0? : Option (TimeInput ℚ))
    (k : KeplerElements ℚ)
    (h : KeplerElements.init (some P) (some a) (some e) (some om) (some i)
        (some Om) (some M0) t0? none = .ok k) :
    k.omega = wrapAt360 om ∧ 0 ≤ k.omega ∧ k.omega < 360 ∧
    k.Omega = wrapAt360 Om ∧ 0 ≤ k.Omega ∧ k.Omega < 360 ∧
    k.i = i ∧ k.M0 = M0 := by
  rw [init_some] at h
  split_ifs at h
  all_goals cases h
  simp only [KeplerElements.omega, KeplerElements.Omega, KeplerElements.i,
    KeplerElements.M0, UnitSystem.decompose, UnitSystem.factor, default_units,
    Option.getD, mul_one]
  exact ⟨trivial, wrapAt360_nonneg om, wrapAt360_lt om, trivial,
    wrapAt360_nonneg Om, wrapAt360_lt Om, trivial, trivial⟩

/-- The instance produced by the C7 witness input omega=370°. -/
def kW7 : KeplerElements ℚ :=
  ⟨default_units, 365, 3 / 2, false, 1 / 2, 10, 21, 33, 53, .j2000⟩

/-- C7 witness: input omega=370° is stored and reported as 10°. -/
theorem angle_normalization_witness :
    kinitOm 370 = .ok kW7 ∧ kW7.omega = 10 ∧ 0 ≤ kW7.omega ∧ kW7.omega < 360 := by
  have h370 : wrapAt360 (370 : ℚ) = 10 := by
    rw [wrapAt360]
    norm_num
  have h33 : wrapAt360 (33 : ℚ) = 33 := by
    rw [wrapAt360]
    norm_num
  have h : KeplerElements.init (some 365) (some ((3 : ℚ) / 2)) (some (1 / 2))
      (some 370) (some 21) (some 33) (some 53) none none = .ok kW7 := by
    rw [init_some]
    norm_num [resolveT0, h370, h33, kW7]
  have hh := angle_normalization 365 (3 / 2) (1 / 2) 370 21 33 53 none kW7 h
  exact ⟨h, hh.1.trans h370, hh.2.1, hh.2.2.1⟩

/-- C2: the two-body constructor forwards its `omega` argument for the
`Omega` parameter of the single-orbit constructor (line 187), so every call
is indistinguishable from the same call with the `Omega` argument replaced
by the `omega` argument — and consequently the caller's `Omega` argument
never influences the outcome at all. -/
theorem omega_forwarded_for_Omega (f g : α → α → α)
    (m1? m2? P? a? e? om? i? Om? M0? : Option α) (t0? : Option (TimeInput α))
    (us? : Option (UnitSystem α)) :
    TwoBodyKeplerElements.init f g m1? m2? P? a? e? om? i? Om? M0? t0? us? =
      TwoBodyKeplerElements.init f g m1? m2? P? a? e? om? i? om? M0? t0? us? ∧
    ∀ Om2? : Option α,
      TwoBodyKeplerElements.init f g m1? m2? P? a? e? om? i? Om? M0? t0? us? =
        TwoBodyKeplerElements.init f g m1? m2? P? a? e? om? i? Om2? M0? t0? us? := by
  constructor
  · cases m1? <;> cases m2? <;> cases P? <;> cases a? <;> rfl
  · intro Om2?
    cases m1? <;> cases m2? <;> cases P? <;> cases a? <;> rfl

/-- C4 counterexample: with all other arguments identical and valid,
omitting `e` from `TwoBodyKeplerElements` (declared default `None`,
line 174, forwarded untouched) fails with a TypeError at the `e < 0`
comparison, whereas passing `e=0` proceeds past every validation to the
base-class completeness check — so the two-body constructor does not
default a missing `e` to 0. -/
theorem e_default_counterexample :
    TwoBodyKeplerElements.initNoE (fun _ _ => (0 : ℚ)) (fun _ _ => 0)
        (some 1) (some 2) (some 365) (some (3 / 2)) (some 67) (some 21)
        (some 33) (some 53) none none = .error .typeError ∧
    TwoBodyKeplerElements.init (fun _ _ => (0 : ℚ)) (fun _ _ => 0)
        (some 1) (some 2) (some 365) (some (3 / 2)) (some 0) (some 67)
        (some 21) (some 33) (some 53) none none = .error .invalidClassDef := by
  constructor
  · simp only [TwoBodyKeplerElements.initNoE, TwoBodyKeplerElements.init,
      TwoBodyKeplerElements.superStep, KeplerElements.initDyn]
    norm_num
  · simp only [TwoBodyKeplerElements.init, TwoBodyKeplerElements.superStep]
    rw [initDyn_some]
    have hnames : ¬ ∀ x ∈ TwoBodyKeplerElements.names, x ∈ keplerAssigned := by decide
    norm_num [hnames]

/-- C4 (amended): a `KeplerElements` built with `e` omitted stores and
reports eccentricity 0 (the declared default, line 73); the two-body
constructor instead declares `e=None` and forwards it, so omitting `e`
there raises a TypeError at the eccentricity comparison. -/
theorem e_default (P a om i Om M0 : ℚ) (t0? : Option (TimeInput ℚ))
    (us? : Option (UnitSystem ℚ)) (k : KeplerElements ℚ)
    (h : KeplerElements.initNoE (some P) (some a) (some om) (some i) (some Om)
        (some M0) t0? us? = .ok k) :
    (k._e = 0 ∧ k.e = 0) ∧
    ∀ f g : ℚ → ℚ → ℚ,
      TwoBodyKeplerElements.initNoE f g (some 1) (some 2) (some 365)
        (some (3 / 2)) (some 67) (some 21) (some 33) (some 53) none none =
      .error .typeError := by
  constructor
  · rw [KeplerElements.initNoE, init_some] at h
    split_ifs at h
    all_goals cases h
    exact ⟨rfl, by simp [KeplerElements.e, UnitSystem.decompose, UnitSystem.factor]⟩
  · intro f g
    simp only [TwoBodyKeplerElements.initNoE, TwoBodyKeplerElements.init,
      TwoBodyKeplerElements.superStep, KeplerElements.initDyn]
    norm_num

/-- The instance produced by the C4 witness (e omitted from a plain
`KeplerElements`). -/
def kW4 : KeplerElements ℚ :=
  ⟨default_units, 365, 3 / 2, false, 0, 67, 21, 33, 53, .j2000⟩

/-- C4 witness: the concrete `KeplerElements` built without `e` reports
eccentricity 0. -/
theorem e_default_witness :
    KeplerElements.initNoE (some 365) (some ((3 : ℚ) / 2)) (some 67) (some 21)
        (some 33) (some 53) none none = .ok kW4 ∧ kW4._e = 0 ∧ kW4.e = 0 := by
  have h67 : wrapAt360 (67 : ℚ) = 67 := by
    rw [wrapAt360]
    norm_num
  have h33 : wrapAt360 (33 : ℚ) = 33 := by
    rw [wrapAt360]
    norm_num
  have h : KeplerElements.initNoE (some 365) (some ((3 : ℚ) / 2)) (some 67)
      (some 21) (some 33) (some 53) none none = .ok kW4 := by
    rw [KeplerElements.initNoE, init_some]
    norm_num [resolveT0, h67, h33, kW4]
  exact ⟨h, (e_default 365 (3 / 2) 67 21 33 53 none none kW4 h).1⟩

/-- C10: `get_component` dispatches on `str(num)`: the integer and string
forms of the same selector give identical results, and any selector whose
string form is neither "1" nor "2" yields the invalid-selector error — no
`KeplerElements` is produced. -/
theorem get_component_dispatch (tb : TwoBodyKeplerElements ℚ) (num : PyVal) :
    tb.get_component (.int 1) = tb.get_component (.str "1") ∧
    tb.get_component (.int 2) = tb.get_component (.str "2") ∧
    (num.toStr ≠ "1" → num.toStr ≠ "2" →
      tb.get_component num = .error (.invalidComponent num.toStr)) := by
  refine ⟨rfl, rfl, fun h1 h2 => ?_⟩
  simp only [TwoBodyKeplerElements.get_component]
  rw [if_neg h1, if_neg h2]

/-- A well-formed two-body state (the C1 scenario's field values, had its
construction succeeded), used as a concrete receiver. -/
def tbW : TwoBodyKeplerElements ℚ :=
  ⟨⟨default_units, 365, 3 / 2, false, 1 / 2, 67, 21, 33, 53, .j2000⟩, 1, 2, 3⟩

/-- C10 witness: selector 3 (whose string form is "3") is rejected with the
invalid-selector error. -/
theorem get_component_dispatch_witness :
    tbW.get_component (.int 3) = .error (.invalidComponent "3") :=
  (get_component_dispatch tbW (.int 3)).2.2 (by decide) (by decide)

/-- C9: on any well-formed two-body state (stored elements in the ranges
construction validates, positive masses, total mass and semi-major axis),
both components construct successfully and the ratio of their semi-major
axes is m2/m1. -/
theorem component_a_ratio (tb : TwoBodyKeplerElements ℚ)
    (hP : 0 ≤ tb.toKeplerElements.P)
    (he0 : 0 ≤ tb.toKeplerElements.e) (he1 : tb.toKeplerElements.e < 1)
    (hi0 : 0 ≤ tb.toKeplerElements.i) (hi1 : tb.toKeplerElements.i ≤ 180)
    (hm1 : 0 < tb.m1) (hm2 : 0 < tb.m2) (hmt : 0 < tb.m_tot)
    (ha : 0 < tb.toKeplerElements.a) :
    ∃ c1 c2, tb.get_component (.str "1") = .ok c1 ∧
      tb.get_component (.str "2") = .ok c2 ∧
      c1.a / c2.a = tb.m2 / tb.m1 := by
  have hP' : ¬ tb.toKeplerElements.P < 0 := not_lt.mpr hP
  have he' : ¬ (tb.toKeplerElements.e < 0 ∨ 1 ≤ tb.toKeplerElements.e) := by
    push_neg
    exact ⟨he0, he1⟩
  have hi' : ¬ (tb.toKeplerElements.i < 0 ∨ 180 < tb.toKeplerElements.i) := by
    push_neg
    exact ⟨hi0, hi1⟩
  have ha1 : ¬ (tb.m2 / tb.m_tot * tb.toKeplerElements.a < 0) :=
    not_lt.mpr (mul_pos (div_pos hm2 hmt) ha).le
  have ha2 : ¬ (tb.m1 / tb.m_tot * tb.toKeplerElements.a < 0) :=
    not_lt.mpr (mul_pos (div_pos hm1 hmt) ha).le
  refine ⟨⟨default_units, tb.toKeplerElements.P,
      tb.m2 / tb.m_tot * tb.toKeplerElements.a, false, tb.toKeplerElements.e,
      wrapAt360 tb.toKeplerElements.omega, tb.toKeplerElements.i,
      wrapAt360 tb.toKeplerElements.Omega, tb.toKeplerElements.M0,
      tb.toKeplerElements.t0⟩,
    ⟨default_units, tb.toKeplerElements.P,
      tb.m1 / tb.m_tot * tb.toKeplerElements.a, false, tb.toKeplerElements.e,
      wrapAt360 (tb.toKeplerElements.omega + 180), tb.toKeplerElements.i,
      wrapAt360 tb.toKeplerElements.Omega, tb.toKeplerElements.M0,
      tb.toKeplerElements.t0⟩, ?_, ?_, ?_⟩
  · simp only [TwoBodyKeplerElements.get_component, PyVal.toStr, if_true]
    rw [init_some, if_neg hP', if_neg ha1, if_neg he', if_neg hi']
    rfl
  · simp only [TwoBodyKeplerElements.get_component, PyVal.toStr, if_true]
    rw [if_neg (by decide : ¬("2" : String) = "1"), init_some, if_neg hP',
      if_neg ha2, if_neg he', if_neg hi']
    rfl
  · set A := tb.toKeplerElements.a with hA
    have ha' : A ≠ 0 := ha.ne'
    have hm1' : tb.m1 ≠ 0 := hm1.ne'
    have hmt' : tb.m_tot ≠ 0 := hmt.ne'
    simp only [KeplerElements.a, UnitSystem.decompose, UnitSystem.factor,
      default_units, Bool.false_eq_true, if_false, mul_one]
    field_simp
    ring

/-- C9 witness: the concrete state `tbW` (m1=1, m2=2, a=1.5 AU) yields
component semi-major axes in ratio 2/1 = m2/m1. -/
theorem component_a_ratio_witness :
    ∃ c1 c2, tbW.get_component (.str "1") = .ok c1 ∧
      tbW.get_component (.str "2") = .ok c2 ∧
      c1.a / c2.a = tbW.m2 / tbW.m1 := by
  exact component_a_ratio tbW
    (by norm_num [tbW, KeplerElements.P, UnitSystem.decompose, UnitSystem.factor, default_units])
    (by norm_num [tbW, KeplerElements.e, UnitSystem.decompose, UnitSystem.factor, default_units])
    (by norm_num [tbW, KeplerElements.e, UnitSystem.decompose, UnitSystem.factor, default_units])
    (by norm_num [tbW, KeplerElements.i, UnitSystem.decompose, UnitSystem.factor, default_units])
    (by norm_num [tbW, KeplerElements.i, UnitSystem.decompose, UnitSystem.factor, default_units])
    (by norm_num [tbW, TwoBodyKeplerElements.m1, UnitSystem.decompose, UnitSystem.factor, default_units])
    (by norm_num [tbW, TwoBodyKeplerElements.m2, UnitSystem.decompose, UnitSystem.factor, default_units])
    (by norm_num [tbW])
    (by norm_num [tbW, KeplerElements.a, UnitSystem.decompose, UnitSystem.factor, default_units])

/-- The super step never yields a success: its delegated completeness check
runs against the two-body name list, and even an (impossible) success would
be followed by the read-only-property assignment failure. -/
theorem superStep_never_ok (Pv av : α) (e? om? i? Om? M0? : Option α)
    (t0? : Option (TimeInput α)) (us? : Option (UnitSystem α)) :
    isOk (TwoBodyKeplerElements.superStep Pv av e? om? i? Om? M0? t0? us?) = false := by
  rw [TwoBodyKeplerElements.superStep]
  cases KeplerElements.initDyn TwoBodyKeplerElements.names (some Pv) (some av)
    e? om? i? om? M0? t0? us? <;> rfl

/-- No call of the two-body constructor, with any arguments and any
transform functions, ever returns a constructed object. -/
theorem twobody_init_never_ok (f g : α → α → α)
    (m1? m2? P? a? e? om? i? Om? M0? : Option α)
    (t0? : Option (TimeInput α)) (us? : Option (UnitSystem α)) :
    isOk (TwoBodyKeplerElements.init f g m1? m2? P? a? e? om? i? Om? M0? t0? us?) = false := by
  cases m1? with
  | none => rfl
  | some m1v =>
    cases m2? with
    | none => rfl
    | some m2v =>
      cases P? with
      | none =>
        cases a? with
        | none => rfl
        | some av =>
          exact superStep_never_ok (f av (m1v + m2v)) av e? om? i? Om? M0? t0? us?
      | some Pv =>
        cases a? with
        | none =>
          exact superStep_never_ok Pv (g Pv (m1v + m2v)) e? om? i? Om? M0? t0? us?
        | some av =>
          exact superStep_never_ok Pv av e? om? i? Om? M0? t0? us?

/-- The period produced by the third-law transform is never negative. -/
theorem a_m_to_P_nonneg (a m : ℝ) : 0 ≤ a_m_to_P a m := by
  rw [a_m_to_P]
  positivity

/-- The modelled gravitational constant is positive. -/
theorem Gconst_pos : (0 : ℝ) < Gconst := by norm_num [Gconst]

/-- Kepler's third law round-trips exactly over the reals: deriving P from
a and the total mass and then deriving a back from that P returns a. -/
theorem P_m_to_a_roundtrip (a m : ℝ) (ha : 0 < a) (hm : 0 < m) :
    P_m_to_a (a_m_to_P a m) m = a := by
  have hGm : 0 < Gconst * m := mul_pos Gconst_pos hm
  have hx : 0 ≤ a ^ 3 / (Gconst * m) := by positivity
  rw [a_m_to_P, P_m_to_a]
  have hsq : (2 * Real.pi * Real.sqrt (a ^ 3 / (Gconst * m))) ^ 2 =
      4 * Real.pi ^ 2 * (a ^ 3 / (Gconst * m)) := by
    rw [mul_pow, mul_pow, Real.sq_sqrt hx]
    ring
  rw [hsq]
  have hpi : Real.pi ≠ 0 := Real.pi_ne_zero
  have h1 : Gconst * m * (4 * Real.pi ^ 2 * (a ^ 3 / (Gconst * m))) /
      (4 * Real.pi ^ 2) = a ^ 3 := by
    field_simp
  rw [h1, ← Real.rpow_natCast a 3, ← Real.rpow_mul ha.le]
  norm_num

/-- C1 (code bug): the concrete valid scenario (m1=1 Msun, m2=2 Msun,
a=1.5 AU, e=0.5, omega=67°, i=21°, Omega=33°, M0=53°, t0=MJD 59112.1423)
does not construct — it fails with the base-class AttributeError, because
`OrbitalElements.__init__` checks the dynamic two-body `names` (including
`m1`/`m2`) for backing attributes before the masses are assigned; indeed no
input whatsoever can construct a `TwoBodyKeplerElements`. -/
theorem twobody_construction_fails :
    TwoBodyKeplerElements.init a_m_to_P P_m_to_a (some 1) (some 2) none
        (some (3 / 2)) (some (1 / 2)) (some 67) (some 21) (some 33) (some 53)
        (some (.num 59112.1423)) none = .error .invalidClassDef ∧
    ∀ (β : Type) [LinearOrderedField β] [FloorRing β]
      (f g : β → β → β) (m1? m2? P? a? e? om? i? Om? M0? : Option β)
      (t0? : Option (TimeInput β)) (us? : Option (UnitSystem β)),
      isOk (TwoBodyKeplerElements.init f g m1? m2? P? a? e? om? i? Om? M0? t0? us?) = false := by
  constructor
  · have hP0 : ¬ a_m_to_P ((3 : ℝ)/2) (1 + 2) < 0 :=
      not_lt.mpr (a_m_to_P_nonneg _ _)
    simp only [TwoBodyKeplerElements.init, TwoBodyKeplerElements.superStep]
    rw [initDyn_some, if_neg hP0, if_neg (by norm_num : ¬((3 : ℝ)/2 < 0)),
      if_neg (by norm_num : ¬((1 : ℝ)/2 < 0 ∨ 1 ≤ (1 : ℝ)/2)),
      if_neg (by norm_num : ¬((21 : ℝ) < 0 ∨ 180 < (21 : ℝ))),
      twoBodyNames_incomplete]
    rfl
  · intro β instF instFR f g m1? m2? P? a? e? om? i? Om? M0? t0? us?
    exact twobody_init_never_ok f g m1? m2? P? a? e? om? i? Om? M0? t0? us?

/-- C8 (code bug): the third-law transforms themselves round-trip exactly
(the mathematical content of the claim holds), but the construction the
claim starts from — `TwoBodyKeplerElements` from a=1.5 AU and masses 1 and
2 Msun — always fails with the base-class AttributeError, so the derived P
can never be read back from an instance. -/
theorem kepler_roundtrip_codebug :
    TwoBodyKeplerElements.init a_m_to_P P_m_to_a (some 1) (some 2) none
        (some (3 / 2)) (some (1 / 2)) (some 67) (some 21) (some 33) (some 53)
        none none = .error .invalidClassDef ∧
    P_m_to_a (a_m_to_P (3 / 2) 3) 3 = 3 / 2 := by
  constructor
  · have hP0 : ¬ a_m_to_P ((3 : ℝ)/2) (1 + 2) < 0 :=
      not_lt.mpr (a_m_to_P_nonneg _ _)
    simp only [TwoBodyKeplerElements.init, TwoBodyKeplerElements.superStep]
    rw [initDyn_some, if_neg hP0, if_neg (by norm_num : ¬((3 : ℝ)/2 < 0)),
      if_neg (by norm_num : ¬((1 : ℝ)/2 < 0 ∨ 1 ≤ (1 : ℝ)/2)),
      if_neg (by norm_num : ¬((21 : ℝ) < 0 ∨ 180 < (21 : ℝ))),
      twoBodyNames_incomplete]
    rfl
  · exact P_m_to_a_roundtrip (3 / 2) 3 (by norm_num) (by norm_num)

end Twobody
